import Mathlib

/-!
Verification development for the promql-languageserver repository.

The Go sources embedded here:
  * `langserver/config.go` — configuration loading/validation (`Validate`),
    runtime reconfiguration (`DidChangeConfiguration`,
    `setURLFromChangeConfiguration`, `connectPrometheus`,
    `setMetadataLookbackIntervalFromChangeConfiguration`) and the completion
    engine (`Completion`, `getCompletions`).
  * the stateless HTTP adapter (`ServeHTTP`, `diagnosticsHandler`,
    `hoverHandler`, `completionHandler`, `returnJSON`, `getPositionFromURL`).

External collaborators (the Go standard library's `url.Parse` and
`strconv.ParseFloat`, the Prometheus client's `LabelValues`, the promql
library's function table, and the document cache's position conversions) are
passed in as explicit parameters or function-valued fields, matching the
spec's treatment of them as interface boundaries.  Repository code that is
referenced but not part of the embedded sources (`getSmallestSurroundingNode`,
`GetQuery`, `DidOpen`/`DidClose`) is modelled from the spec; each such
definition says so in its doc comment.
-/

namespace PromQLLS

/-- protocol.Position.  The vendored protocol declares the fields as float64;
only natural line/character values occur, so they are modelled as `Nat`. -/
structure Position where
  line : Nat
  character : Nat
deriving Repr, DecidableEq

/-- protocol.Range. -/
structure Range where
  start : Position
  stop : Position
deriving Repr, DecidableEq

/-- protocol.TextEdit. -/
structure TextEdit where
  range : Range
  newText : String
deriving Repr, DecidableEq

/-- protocol.CompletionItem, restricted to the fields `getCompletions`
populates.  `insertTextFormat = 0` stands for the Go zero value (unset). -/
structure CompletionItem where
  label : String
  sortText : String
  kind : Nat
  insertTextFormat : Nat
  textEdit : Option TextEdit
deriving Repr, DecidableEq

/-- protocol.CompletionList. -/
structure CompletionList where
  isIncomplete : Bool
  items : List CompletionItem
deriving Repr, DecidableEq

/-- A promql AST node, abstracted to what the completion engine inspects:
its dynamic kind (`*promql.VectorSelector`, `*promql.MatrixSelector`, or
anything else), the selector's `Name`, and its source range `[pos, endPos)`
in token positions. -/
inductive Node where
  | vectorSelector (name : String) (pos endPos : Int)
  | matrixSelector (name : String) (pos endPos : Int)
  | other (pos endPos : Int)
deriving Repr, DecidableEq

/-- `node.Pos()`. -/
def Node.pos : Node → Int
  | .vectorSelector _ p _ => p
  | .matrixSelector _ p _ => p
  | .other p _ => p

/-- End of the node's source range. -/
def Node.endPos : Node → Int
  | .vectorSelector _ _ e => e
  | .matrixSelector _ _ e => e
  | .other _ e => e

/-- Width of the node's source range; "smallest node" compares widths. -/
def Node.width (n : Node) : Int := n.endPos - n.pos

/-- The type switch at the top of `getCompletions`: the selector `Name` when
the node is a vector or matrix selector, `none` for every other node kind. -/
def Node.selectorName : Node → Option String
  | .vectorSelector name _ _ => some name
  | .matrixSelector name _ _ => some name
  | .other _ _ => none

/-- Of two nodes, the one with the smaller source range (the first on ties). -/
def smallerNode (a b : Node) : Node := if b.width < a.width then b else a

/-- Modelled from the spec: `getSmallestSurroundingNode` returns, among the
AST's nodes whose source range contains the offset, one of smallest width,
or `none` when no node's range contains the offset.  An AST is modelled as
the list of its nodes, each carrying its source range. -/
def getSmallestSurroundingNode (ast : List Node) (p : Int) : Option Node :=
  match ast.filter (fun n => decide (n.pos ≤ p) && decide (p < n.endPos)) with
  | [] => none
  | n :: ns => some (ns.foldl smallerNode n)

/-- cache.CompiledQuery: the offset range of the query region inside the
document and the parsed AST. -/
structure CompiledQuery where
  startOffset : Int
  endOffset : Int
  ast : List Node
deriving Repr, DecidableEq

instance {ε α : Type} [DecidableEq ε] [DecidableEq α] : DecidableEq (Except ε α) :=
  fun a b =>
    match a, b with
    | .error e, .error f => decidable_of_iff (e = f) (by simp)
    | .error _, .ok _ => isFalse (fun h => Except.noConfusion h)
    | .ok _, .error _ => isFalse (fun h => Except.noConfusion h)
    | .ok x, .ok y => decidable_of_iff (x = y) (by simp)

/-- cache.Document, restricted to what `Completion`/`getCompletions` use.
`protocolPositionToTokenPos` and `posToProtocolPosition` are the Position
Mapper's conversions, function-valued because the mapper is an external
collaborator of the embedded code; they fail (e.g. `OutOfRange`) with an
error message. -/
structure Document where
  queries : List CompiledQuery
  protocolPositionToTokenPos : Position → Except String Int
  posToProtocolPosition : Int → Except String Position

/-- Modelled from the spec: `Document.GetQuery` returns the Compiled Query
whose offset range contains the position, failing when none does. -/
def Document.getQuery (doc : Document) (p : Int) : Except String CompiledQuery :=
  match doc.queries.filter (fun q => decide (q.startOffset ≤ p) && decide (p < q.endOffset)) with
  | [] => .error "no query found"
  | q :: _ => .ok q

/-- The langserver `server` struct, restricted to what the completion engine
reads. `getDocument` is `s.cache.GetDocument`; `prometheus = none` models a
nil Prometheus client, and `prometheus = some r` models a client whose
`LabelValues(ctx, "__name__")` call returns `r` (names, or an error when the
endpoint is unreachable).  `functions` is the promql library's static
function table, a Go map modelled as the list of its keys. -/
structure Server where
  getDocument : String → Except String Document
  prometheus : Option (Except String (List String))
  functions : List String

/-- Whether the second character list is a prefix of the first. -/
def hasPrefixChars : List Char → List Char → Bool
  | _, [] => true
  | [], _ :: _ => false
  | c :: cs, p :: ps => c == p && hasPrefixChars cs ps

/-- Go `strings.HasPrefix(s, pre)`. -/
def goHasPrefix (s pre : String) : Bool := hasPrefixChars s.data pre.data

/-- Go `strings.ToLower` (the names involved are ASCII, where `Char.toLower`
agrees with Go's Unicode lowering). -/
def goToLower (s : String) : String := String.mk (s.data.map Char.toLower)

/-- The item `getCompletions` builds for a matching function name:
kind 3 (Function), snippet insert format, sort text `__1__` + name. -/
def functionItem (editRange : Range) (name : String) : CompletionItem :=
  { label := name
    sortText := "__1__" ++ name
    kind := 3
    insertTextFormat := 2
    textEdit := some { range := editRange, newText := name ++ "($1)" } }

/-- The item `getCompletions` builds for a matching metric name:
kind 12 (Value), sort text `__3__` + name. -/
def valueItem (editRange : Range) (name : String) : CompletionItem :=
  { label := name
    sortText := "__3__" ++ name
    kind := 12
    insertTextFormat := 0
    textEdit := some { range := editRange, newText := name } }

/-- `(*server).getCompletions` from `langserver/config.go`:
type-switch on the node (non-selectors return `(nil, nil)`, modelled
`.ok none`); nil Prometheus client returns `(nil, nil)`; a failing
`LabelValues` lookup returns its error; the edit range runs from the node's
start over `len(metricName)` bytes; function names are kept when the
lowercased candidate has the metric name as prefix, metric names when the
candidate has it as prefix verbatim; the function items precede the metric
items and the list is marked incomplete. -/
def getCompletions (s : Server) (doc : Document) (node : Node) :
    Except String (Option CompletionList) :=
  match node.selectorName with
  | none => .ok none
  | some metricName =>
    match s.prometheus with
    | none => .ok none
    | some labelValuesResult =>
      match labelValuesResult with
      | .error e => .error e
      | .ok allNames =>
        match doc.posToProtocolPosition node.pos with
        | .error e => .error e
        | .ok rangeStart =>
          match doc.posToProtocolPosition (node.pos + (metricName.utf8ByteSize : Int)) with
          | .error e => .error e
          | .ok rangeEnd =>
            let editRange : Range := { start := rangeStart, stop := rangeEnd }
            let functionItems :=
              (s.functions.filter (fun name => goHasPrefix (goToLower name) metricName)).map
                (functionItem editRange)
            let valueItems :=
              (allNames.filter (fun name => goHasPrefix name metricName)).map
                (valueItem editRange)
            .ok (some { isIncomplete := true, items := functionItems ++ valueItems })

/-- `(*server).Completion` from `langserver/config.go`: document lookup
failure is returned as an error; position-conversion failure and query-lookup
failure return `(nil, nil)`; the query is looked up at `pos - 1`; the node
lookup runs at `pos - 1` first, and only if `getCompletions` on that node
errors or yields nil is the lookup retried at `pos`; a nil node at either
step returns `(nil, nil)`. -/
def Completion (s : Server) (uri : String) (ppos : Position) :
    Except String (Option CompletionList) :=
  match s.getDocument uri with
  | .error e => .error e
  | .ok doc =>
    match doc.protocolPositionToTokenPos ppos with
    | .error _ => .ok none
    | .ok pos =>
      match doc.getQuery (pos - 1) with
      | .error _ => .ok none
      | .ok query =>
        match getSmallestSurroundingNode query.ast (pos - 1) with
        | none => .ok none
        | some node =>
          match getCompletions s doc node with
          | .ok (some completions) => .ok (some completions)
          | _ =>
            match getSmallestSurroundingNode query.ast pos with
            | none => .ok none
            | some node2 => getCompletions s doc node2

/-- The smallest surrounding node looked up across every Compiled Query of the
document, as the spec's step 1 words it ("within every Compiled Query of the
Document"). -/
def getSmallestSurroundingNodeAll (doc : Document) (p : Int) : Option Node :=
  getSmallestSurroundingNode (doc.queries.foldr (fun q acc => q.ast ++ acc) []) p

/-- Claim C1's description of `Completion`, written from the spec's words:
locate, across the document's Compiled Queries, the smallest AST node whose
range contains the cursor offset; only if no node contains the cursor retry
the lookup at `cursor - 1`; then complete at the located node. -/
def CompletionClaim (s : Server) (uri : String) (ppos : Position) :
    Except String (Option CompletionList) :=
  match s.getDocument uri with
  | .error e => .error e
  | .ok doc =>
    match doc.protocolPositionToTokenPos ppos with
    | .error _ => .ok none
    | .ok pos =>
      match getSmallestSurroundingNodeAll doc pos with
      | some node => getCompletions s doc node
      | none =>
        match getSmallestSurroundingNodeAll doc (pos - 1) with
        | none => .ok none
        | some node => getCompletions s doc node

/-- `true` exactly on a successful, non-nil completion result — the guard
`err == nil && completions != nil` in `Completion`. -/
def isOkSome : Except String (Option CompletionList) → Bool
  | .ok (some _) => true
  | _ => false

/-- The candidate list carried by a completion result: a nil list carries no
candidates. -/
def candidates : Option CompletionList → List CompletionItem
  | none => []
  | some cl => cl.items

/-- `needle` is a subsequence of `haystack` — the usual notion of a fuzzy
character match. -/
def isSubsequenceOf : List Char → List Char → Bool
  | [], _ => true
  | _ :: _, [] => false
  | a :: as, b :: bs =>
    if a == b then isSubsequenceOf as bs else isSubsequenceOf (a :: as) bs

/-- Claim C2's matching rule, written from the spec's words: the candidate
matches the partial token by prefix or fuzzily, case-insensitively for both
candidate and token. -/
def claimMatches (tok cand : String) : Bool :=
  goHasPrefix (goToLower cand) (goToLower tok) ||
    isSubsequenceOf (goToLower tok).data (goToLower cand).data

/-! ## Configuration loading (`Config.Validate`, `langserver/config.go`) -/

/-- The `Config` struct.  `model.Duration` is an integer nanosecond count,
modelled as `Int`; `LogFormat` is a string. -/
structure Config where
  rpcTrace : String
  logFormat : String
  prometheusURL : String
  restAPIPort : Nat
  metadataLookbackInterval : Int
deriving Repr, DecidableEq

/-- `defaultInterval = model.Duration(12 * 3600 * time.Second)`, in
nanoseconds. -/
def defaultInterval : Int := 12 * 3600 * 1000000000

/-- The log-format check inside `Validate`: a non-empty format must be one of
`json`/`text`; an empty one defaults to `text`. -/
def validateLogFormat (c : Config) : Except String Config :=
  if c.logFormat.length > 0 then
    if c.logFormat == "json" || c.logFormat == "text" then .ok c
    else .error ("invalid value for logFormat. \"" ++ c.logFormat ++
      "\" Valid values are  \"text\" or \"json\"")
  else .ok { c with logFormat := "text" }

/-- `(*Config).Validate`: a non-empty `PrometheusURL` must parse (the Go
standard library's `url.Parse` is the `urlParse` parameter), the log format
is checked, and a non-positive `MetadataLookbackInterval` is replaced by
`defaultInterval`.  Go mutates the receiver; the model returns the updated
config. -/
def validate (urlParse : String → Except String Unit) (c : Config) :
    Except String Config :=
  match (if c.prometheusURL.length > 0 then urlParse c.prometheusURL else .ok ()) with
  | .error e => .error e
  | .ok _ =>
    match validateLogFormat c with
    | .error e => .error e
    | .ok c1 =>
      .ok (if c1.metadataLookbackInterval ≤ 0 then
             { c1 with metadataLookbackInterval := defaultInterval }
           else c1)

/-! ## Runtime reconfiguration (`DidChangeConfiguration` and helpers) -/

/-- The metadata service's visible state: the configured data-source URL and
the last successfully fetched snapshot of metric names. -/
structure MetadataService where
  dataSourceURL : String
  snapshotNames : List String
deriving Repr, DecidableEq

/-- Modelled from the spec: `metadataService.ChangeDataSource` swaps the
configured endpoint to the new URL and triggers an immediate refresh; when
the refresh fails it reports the error but keeps the new URL installed (it
does not fall back to the old one) and retains the previous snapshot.
`fetch` stands for the network fetch against a given URL. -/
def changeDataSource (fetch : String → Except String (List String))
    (m : MetadataService) (url : String) : MetadataService × Option String :=
  let installed := { m with dataSourceURL := url }
  match fetch url with
  | .ok names => ({ installed with snapshotNames := names }, none)
  | .error e => (installed, some e)

/-- The langserver state touched by `DidChangeConfiguration`: the metadata
service, the configured lookback interval, and the messages sent to the
client (`LogMessage` and `ShowMessage` records, in order). -/
structure LangState where
  metadataService : MetadataService
  metadataLookbackInterval : Int
  logMessages : List String
  showMessages : List String
deriving Repr, DecidableEq

/-- `(*server).connectPrometheus`: delegates to `ChangeDataSource`; on
failure shows the connection error to the client and returns the error. -/
def connectPrometheus (fetch : String → Except String (List String))
    (s : LangState) (url : String) : LangState × Option String :=
  match changeDataSource fetch s.metadataService url with
  | (m, none) => ({ s with metadataService := m }, none)
  | (m, some e) =>
    ({ s with
        metadataService := m
        showMessages := s.showMessages ++
          ["Failed to connect to Prometheus at " ++ url ++ ":\n\n" ++ e ++ " "] },
      some e)

/-- `(*server).setURLFromChangeConfiguration`: when the settings carry a
`url` key, the URL is parsed first (`url.Parse`, the `urlParse` parameter);
a parse failure is returned before anything is swapped, and only a
syntactically valid URL reaches `connectPrometheus`. -/
def setURLFromChangeConfiguration (urlParse : String → Except String Unit)
    (fetch : String → Except String (List String))
    (s : LangState) (settings : List (String × String)) : LangState × Option String :=
  match (settings.find? (fun kv => kv.fst == "url")).map Prod.snd with
  | none => (s, none)
  | some promURL =>
    match urlParse promURL with
    | .error e => (s, some e)
    | .ok _ => connectPrometheus fetch s promURL

/-- `(*server).setMetadataLookbackIntervalFromChangeConfiguration`: when the
settings carry a `metadataLookbackInterval` key, its value is parsed with
`model.ParseDuration` (the `parseDuration` parameter) and, on success, stored. -/
def setMetadataLookbackIntervalFromChangeConfiguration
    (parseDuration : String → Except String Int)
    (s : LangState) (settings : List (String × String)) : LangState × Option String :=
  match (settings.find? (fun kv => kv.fst == "metadataLookbackInterval")).map Prod.snd with
  | none => (s, none)
  | some interval =>
    match parseDuration interval with
    | .error e => (s, some e)
    | .ok d => ({ s with metadataLookbackInterval := d }, none)

/-- The `params.Settings` value of a configuration-change notification: Go
receives an `interface\x7b\x7d` and type-asserts it to
`map[string]map[string]string`; every value of another dynamic type is
`malformed`. -/
inductive Settings where
  | wellFormed (m : List (String × List (String × String)))
  | malformed
deriving Repr, DecidableEq

/-- `(*server).DidChangeConfiguration`: nil params return nil immediately;
otherwise the notification is logged, a malformed settings value or a
missing `promql` key is logged and absorbed, and errors from the URL and
interval setters are logged and absorbed.  The second component is the
error returned to the caller. -/
def didChangeConfiguration (urlParse : String → Except String Unit)
    (fetch : String → Except String (List String))
    (parseDuration : String → Except String Int)
    (s : LangState) (params : Option Settings) : LangState × Option String :=
  match params with
  | none => (s, none)
  | some settings =>
    let s0 := { s with logMessages := s.logMessages ++ ["Received notification change"] }
    match settings with
    | .malformed =>
      ({ s0 with logMessages := s0.logMessages ++ ["unexpected format of the configuration"] },
        none)
    | .wellFormed m =>
      match (m.find? (fun kv => kv.fst == "promql")).map Prod.snd with
      | none =>
        ({ s0 with logMessages := s0.logMessages ++ ["promQL key not found"] }, none)
      | some config =>
        let (s1, urlErr) := setURLFromChangeConfiguration urlParse fetch s0 config
        let s2 :=
          match urlErr with
          | some e => { s1 with logMessages := s1.logMessages ++ [e] }
          | none => s1
        let (s3, intervalErr) :=
          setMetadataLookbackIntervalFromChangeConfiguration parseDuration s2 config
        let s4 :=
          match intervalErr with
          | some e => { s3 with logMessages := s3.logMessages ++ [e] }
          | none => s3
        (s4, none)

/-! ## Stateless HTTP adapter (`ServeHTTP` and its sub-handlers) -/

/-- An HTTP request as the adapter reads it: the URL path and the decoded
query parameters (`url.Values` maps a key to a list of values). -/
structure Request where
  path : String
  query : List (String × List String)

/-- `r.URL.Query()[key]`: the values stored under a key, `none` when the key
is absent. -/
def queryGet (q : List (String × List String)) (key : String) : Option (List String) :=
  (q.find? (fun kv => kv.fst == key)).map Prod.snd

/-- An HTTP response: status code and body.  `http.Error` terminates the
body with a newline; bodies are modelled without it, uniformly. -/
structure Response where
  status : Nat
  body : String
deriving Repr, DecidableEq

/-- The document cache of the headless langserver: URI to document text. -/
abbrev DocCache := List (String × String)

/-- Lookup of a URI in the document cache. -/
def cacheLookup (cache : DocCache) (uri : String) : Option String :=
  (cache.find? (fun kv => kv.fst == uri)).map Prod.snd

/-- Modelled from the spec: `DidOpen` creates a document keyed by URI and
fails when the URI is already open. -/
def didOpen (cache : DocCache) (uri text : String) : Except String DocCache :=
  match cacheLookup cache uri with
  | some _ => .error "AlreadyOpen"
  | none => .ok ((uri, text) :: cache)

/-- Modelled from the spec: `DidClose` removes the document from the cache. -/
def didClose (cache : DocCache) (uri : String) : DocCache :=
  cache.filter (fun kv => kv.fst != uri)

/-- The headless langserver operations the sub-handlers call.  Each reads the
document cache and the request URI; the successful result is the JSON payload
`returnJSON` writes, abstracted as a string. -/
structure HeadlessServer where
  getDiagnostics : DocCache → String → Except String String
  hover : DocCache → String → Position → Except String String
  completion : DocCache → String → Position → Except String String

/-- `getPositionFromURL`: requires `line` and `char` query parameters, parsed
with `strconv.ParseFloat` (the `parseNum` parameter, abstracted to natural
values); a missing parameter or a parse failure is an error. -/
def getPositionFromURL (parseNum : String → Option Nat)
    (q : List (String × List String)) : Except String Position :=
  match queryGet q "line" with
  | none => .error "Param line is not specified"
  | some [] => .error "Param line is not specified"
  | some (lineStr :: _) =>
    match parseNum lineStr with
    | none => .error "Failed to parse line number"
    | some line =>
      match queryGet q "char" with
      | none => .error "Param char is not specified"
      | some [] => .error "Param char is not specified"
      | some (charStr :: _) =>
        match parseNum charStr with
        | none => .error "Failed to parse char number"
        | some char => .ok { line := line, character := char }

/-- The handler's mutable state: the document cache behind the headless
server and the `requestCounter` used to synthesize per-request URIs. -/
structure HandlerState where
  cache : DocCache
  requestCounter : Int

/-- The URI synthesized for a request: the incremented counter, rendered, with
`.promql` appended. -/
def requestURI (counter : Int) : String := toString counter ++ ".promql"

/-- The body of `diagnosticsHandler` for an open document. -/
def diagnosticsResponse (h : HeadlessServer) (cache : DocCache) (uri : String) : Response :=
  match h.getDiagnostics cache uri with
  | .error e => { status := 500, body := "failed to get diagnostics: " ++ e }
  | .ok body => { status := 200, body := body }

/-- The body of `hoverHandler` for an open document: position errors are 400,
hover errors 500. -/
def hoverResponse (h : HeadlessServer) (parseNum : String → Option Nat)
    (cache : DocCache) (uri : String) (q : List (String × List String)) : Response :=
  match getPositionFromURL parseNum q with
  | .error e => { status := 400, body := e }
  | .ok pos =>
    match h.hover cache uri pos with
    | .error e => { status := 500, body := "failed to get hover info: " ++ e }
    | .ok body => { status := 200, body := body }

/-- The body of `completionHandler` for an open document.  The source wraps a
completion failure with the message "failed to get hover info" as well. -/
def completionResponse (h : HeadlessServer) (parseNum : String → Option Nat)
    (cache : DocCache) (uri : String) (q : List (String × List String)) : Response :=
  match getPositionFromURL parseNum q with
  | .error e => { status := 400, body := e }
  | .ok pos =>
    match h.completion cache uri pos with
    | .error e => { status := 500, body := "failed to get hover info: " ++ e }
    | .ok body => { status := 200, body := body }

/-- `(*langserverHandler).ServeHTTP`: the request counter is incremented
first; unknown paths get 404; a missing or empty `expr` parameter gets 400
before any document is opened; otherwise an ephemeral document holding the
expression is opened under the synthesized URI (an open failure is a 500),
the path's sub-handler runs against it, and the deferred `DidClose` removes
the document on every path that reached the open call. -/
def serveHTTP (h : HeadlessServer) (parseNum : String → Option Nat)
    (st : HandlerState) (req : Request) : Response × HandlerState :=
  let counter := st.requestCounter + 1
  let uri := requestURI counter
  if req.path != "/diagnostics" && req.path != "/hover" && req.path != "/completion" then
    ({ status := 404, body := "404 page not found" }, { cache := st.cache, requestCounter := counter })
  else
    match queryGet req.query "expr" with
    | none =>
      ({ status := 400, body := "Param expr is not specified" },
        { cache := st.cache, requestCounter := counter })
    | some [] =>
      ({ status := 400, body := "Param expr is not specified" },
        { cache := st.cache, requestCounter := counter })
    | some (expr :: _) =>
      match didOpen st.cache uri expr with
      | .error e =>
        ({ status := 500, body := "failed to open document: " ++ e },
          { cache := didClose st.cache uri, requestCounter := counter })
      | .ok opened =>
        let resp :=
          if req.path == "/diagnostics" then diagnosticsResponse h opened uri
          else if req.path == "/hover" then hoverResponse h parseNum opened uri req.query
          else completionResponse h parseNum opened uri req.query
        (resp, { cache := didClose opened uri, requestCounter := counter })

/-! ## Concrete fixtures for counterexamples and witnesses -/

/-- A headless server whose core operations fail, for exercising the 500
paths of the adapter. -/
def c6hs : HeadlessServer :=
  { getDiagnostics := fun _ _ => .error "parse error"
    hover := fun _ _ _ => .error "hover boom"
    completion := fun _ _ _ => .ok "[]" }

/-- The number parser used by the adapter fixtures (standing in for
`strconv.ParseFloat` at the natural-valued inputs the fixtures use). -/
def c6pf : String → Option Nat :=
  fun s => if s == "0" then some 0 else if s == "1" then some 1 else none

def c6st : HandlerState := { cache := [], requestCounter := 0 }

/-- A headless server whose operations succeed. -/
def c7hs : HeadlessServer :=
  { getDiagnostics := fun _ _ => .ok "[]"
    hover := fun _ _ _ => .ok "hoverinfo"
    completion := fun _ _ _ => .ok "[]" }

def c8state : LangState :=
  { metadataService := { dataSourceURL := "http://old:9090", snapshotNames := ["up"] }
    metadataLookbackInterval := 0
    logMessages := []
    showMessages := [] }

def c9badParse : String → Except String Unit := fun _ => .error "missing protocol scheme"

def c9okParse : String → Except String Unit := fun _ => .ok ()

def c9cfg : Config :=
  { rpcTrace := ""
    logFormat := ""
    prometheusURL := "http://localhost:9090"
    restAPIPort := 0
    metadataLookbackInterval := -5 }

/-- One query `[0,4)` holding adjacent selectors `a` on `[0,2)` and `b` on
`[2,4)`; protocol positions convert as column = offset. -/
def c1doc : Document :=
  { queries := [{ startOffset := 0, endOffset := 4,
                  ast := [Node.vectorSelector "a" 0 2, Node.vectorSelector "b" 2 4] }]
    protocolPositionToTokenPos := fun p => .ok (p.character : Int)
    posToProtocolPosition := fun i => .ok { line := 0, character := i.toNat } }

def c1srv : Server :=
  { getDocument := fun _ => .ok c1doc
    prometheus := some (.ok ["aa", "bb"])
    functions := [] }

def c2doc : Document :=
  { queries := []
    protocolPositionToTokenPos := fun p => .ok (p.character : Int)
    posToProtocolPosition := fun i => .ok { line := 0, character := i.toNat } }

def c2srv : Server :=
  { getDocument := fun _ => .ok c2doc
    prometheus := some (.ok [])
    functions := ["rate"] }

/-- A selector whose partial token is upper-case. -/
def c2node : Node := .vectorSelector "RA" 0 2

def c2wsrv : Server :=
  { getDocument := fun _ => .ok c2doc
    prometheus := some (.ok ["railgun"])
    functions := ["rate"] }

def c2wnode : Node := .vectorSelector "ra" 0 2

def c3doc : Document :=
  { queries := [{ startOffset := 0, endOffset := 4, ast := [Node.vectorSelector "a" 0 4] }]
    protocolPositionToTokenPos := fun p => .ok (p.character : Int)
    posToProtocolPosition := fun i => .ok { line := 0, character := i.toNat } }

/-- A server whose Prometheus endpoint is unreachable: `LabelValues` fails. -/
def c3srv : Server :=
  { getDocument := fun _ => .ok c3doc
    prometheus := some (.error "connection refused")
    functions := [] }

def c4doc : Document :=
  { queries := []
    protocolPositionToTokenPos := fun _ => .error "OutOfRange"
    posToProtocolPosition := fun i => .ok { line := 0, character := i.toNat } }

def c4srv : Server :=
  { getDocument := fun _ => .ok c4doc
    prometheus := none
    functions := [] }

def c5doc : Document :=
  { queries := []
    protocolPositionToTokenPos := fun p => .ok (p.character : Int)
    posToProtocolPosition := fun i => .ok { line := 0, character := i.toNat } }

def c5srv : Server :=
  { getDocument := fun _ => .ok c5doc
    prometheus := some (.ok ["up"])
    functions := ["rate"] }

/-! ## Theorems -/

/-- Removing a URI that is not in the cache leaves the cache unchanged. -/
theorem filter_ne_of_lookup_none (cache : DocCache) (uri : String)
    (hl : cacheLookup cache uri = none) :
    List.filter (fun kv => kv.fst != uri) cache = cache := by
  induction cache with
  | nil => rfl
  | cons kv rest ih =>
    have hk : (kv.fst == uri) = false := by
      rcases h : kv.fst == uri with _ | _
      · rfl
      · simp [cacheLookup, List.find?, h] at hl
    have hrest : cacheLookup rest uri = none := by
      unfold cacheLookup at hl ⊢
      simpa only [List.find?, hk] using hl
    rw [List.filter_cons, if_pos (by simp [bne, hk]), ih hrest]

/-- `didClose` on a URI that is not open is the identity. -/
theorem didClose_not_open (cache : DocCache) (uri : String)
    (hl : cacheLookup cache uri = none) : didClose cache uri = cache :=
  filter_ne_of_lookup_none cache uri hl

/-- `didClose` after `didOpen` of a fresh URI restores the cache. -/
theorem didClose_didOpen (cache : DocCache) (uri text : String)
    (hl : cacheLookup cache uri = none) :
    didClose ((uri, text) :: cache) uri = cache := by
  unfold didClose
  rw [List.filter_cons, if_neg (by simp), filter_ne_of_lookup_none cache uri hl]

/-- C1, counterexample: with adjacent selectors `a` on `[0,2)` and `b` on
`[2,4)` and the cursor at offset 2, the code completes from the node at
`cursor - 1` (selector `a`, matching metric `aa`) even though a node
(selector `b`) contains the cursor offset, while the claimed
locate-at-cursor-first behaviour completes from `b`.  The claim's lookup
order is therefore not the code's. -/
theorem completion_lookup_order_counterexample :
    Completion c1srv "1.promql" { line := 0, character := 2 } ≠
      CompletionClaim c1srv "1.promql" { line := 0, character := 2 } := by
  decide

/-- C1, amended: Completion consults only the Compiled Query containing
`cursor - 1` and first locates the smallest AST node containing `cursor - 1`.
When no node contains `cursor - 1` it returns a nil result without retrying.
When the node at `cursor - 1` yields completions they are returned, and only
when completion at that node errors or yields nil is the lookup retried at
the cursor offset itself. -/
theorem completion_consults_cursor_minus_one_first
    (s : Server) (uri : String) (ppos : Position) (doc : Document) (pos : Int)
    (query : CompiledQuery)
    (hdoc : s.getDocument uri = .ok doc)
    (hpos : doc.protocolPositionToTokenPos ppos = .ok pos)
    (hquery : doc.getQuery (pos - 1) = .ok query) :
    (getSmallestSurroundingNode query.ast (pos - 1) = none →
      Completion s uri ppos = .ok none)
    ∧ (∀ node cl, getSmallestSurroundingNode query.ast (pos - 1) = some node →
        getCompletions s doc node = .ok (some cl) →
        Completion s uri ppos = .ok (some cl))
    ∧ (∀ node, getSmallestSurroundingNode query.ast (pos - 1) = some node →
        isOkSome (getCompletions s doc node) = false →
        Completion s uri ppos =
          (match getSmallestSurroundingNode query.ast pos with
            | none => Except.ok none
            | some node2 => getCompletions s doc node2)) := by
  have hC : Completion s uri ppos =
      (match getSmallestSurroundingNode query.ast (pos - 1) with
        | none => Except.ok none
        | some node =>
          match getCompletions s doc node with
          | .ok (some completions) => .ok (some completions)
          | _ =>
            match getSmallestSurroundingNode query.ast pos with
            | none => Except.ok none
            | some node2 => getCompletions s doc node2) := by
    simp only [Completion, hdoc, hpos, hquery]
  refine ⟨?_, ?_, ?_⟩
  · intro h
    rw [hC, h]
  · intro node cl hn hg
    rw [hC, hn]
    simp only [hg]
  · intro node hn hfail
    rw [hC, hn]
    rcases hg : getCompletions s doc node with e | o
    · simp only [hg]
    · rcases o with _ | cl
      · simp only [hg]
      · rw [hg] at hfail
        simp only [isOkSome] at hfail
        exact Bool.noConfusion hfail
/-- C1 witness: at the fixture, the completion list of the node at
`cursor - 1` (metric `aa`) is returned. -/
theorem completion_consults_cursor_minus_one_first_witness :
    Completion c1srv "1.promql" { line := 0, character := 2 } =
      .ok (some { isIncomplete := true, items := [valueItem ⟨⟨0, 0⟩, ⟨0, 1⟩⟩ "aa"] }) :=
  (completion_consults_cursor_minus_one_first c1srv "1.promql"
      { line := 0, character := 2 } c1doc 2
      { startOffset := 0, endOffset := 4,
        ast := [Node.vectorSelector "a" 0 2, Node.vectorSelector "b" 2 4] }
      rfl rfl rfl).2.1 (Node.vectorSelector "a" 0 2) _ rfl rfl

/-- C2, counterexample: the partial token `RA` matches the function name
`rate` under the claim's case-insensitive prefix-or-fuzzy rule, yet the code
returns no items for it: `getCompletions` lowercases only the candidate, so
an upper-case token matches nothing, and no fuzzy matching exists. -/
theorem completion_matching_counterexample :
    claimMatches "RA" "rate" = true ∧
      getCompletions c2srv c2doc c2node =
        .ok (some { isIncomplete := true, items := [] }) := by
  exact ⟨by decide, by decide⟩

/-- C2, amended: candidates are matched by prefix only — function names after
lowercasing only the candidate (the token is used as typed), metric names
case-sensitively — with no fuzzy matching; every returned item is exactly a
function item (kind 3, snippet, sort text `__1__` + name) or a value item
(kind 12, sort text `__3__` + name) whose text edit covers the range from the
node's start over the token's byte length; the code does not sort (function
items in table order precede metric items in endpoint order), tier ordering
being delegated to the editor through the sort-text prefixes. -/
theorem getCompletions_prefix_only_characterization
    (s : Server) (doc : Document) (node : Node) (tok : String)
    (names : List String) (ps pe : Position)
    (hname : node.selectorName = some tok)
    (hprom : s.prometheus = some (.ok names))
    (hps : doc.posToProtocolPosition node.pos = .ok ps)
    (hpe : doc.posToProtocolPosition (node.pos + (tok.utf8ByteSize : Int)) = .ok pe) :
    ∃ cl, getCompletions s doc node = .ok (some cl) ∧
      cl.isIncomplete = true ∧
      cl.items =
        (s.functions.filter (fun name => goHasPrefix (goToLower name) tok)).map
            (functionItem { start := ps, stop := pe }) ++
          (names.filter (fun name => goHasPrefix name tok)).map
            (valueItem { start := ps, stop := pe }) ∧
      (∀ item ∈ cl.items, ∃ name,
        (item = functionItem { start := ps, stop := pe } name ∧ name ∈ s.functions ∧
          goHasPrefix (goToLower name) tok = true) ∨
        (item = valueItem { start := ps, stop := pe } name ∧ name ∈ names ∧
          goHasPrefix name tok = true)) ∧
      (∀ name ∈ s.functions, goHasPrefix (goToLower name) tok = true →
        functionItem { start := ps, stop := pe } name ∈ cl.items) ∧
      (∀ name ∈ names, goHasPrefix name tok = true →
        valueItem { start := ps, stop := pe } name ∈ cl.items) := by
  simp only [getCompletions, hname, hprom, hps, hpe]
  refine ⟨_, rfl, rfl, rfl, ?_, ?_, ?_⟩
  · intro item hitem
    rcases List.mem_append.mp hitem with hf | hv
    · rcases List.mem_map.mp hf with ⟨name, hmem, rfl⟩
      rcases List.mem_filter.mp hmem with ⟨hin, hpred⟩
      exact ⟨name, Or.inl ⟨rfl, hin, hpred⟩⟩
    · rcases List.mem_map.mp hv with ⟨name, hmem, rfl⟩
      rcases List.mem_filter.mp hmem with ⟨hin, hpred⟩
      exact ⟨name, Or.inr ⟨rfl, hin, hpred⟩⟩
  · intro name hmem hpred
    exact List.mem_append_left _
      (List.mem_map.mpr ⟨name, List.mem_filter.mpr ⟨hmem, hpred⟩, rfl⟩)
  · intro name hmem hpred
    exact List.mem_append_right _
      (List.mem_map.mpr ⟨name, List.mem_filter.mpr ⟨hmem, hpred⟩, rfl⟩)
/-- C2 witness: for the lower-case token `ra` with function table `[rate]`
and metric names `[railgun]`, the characterization is instantiated. -/
theorem getCompletions_prefix_only_characterization_witness :
    ∃ cl, getCompletions c2wsrv c2doc c2wnode = .ok (some cl) ∧
      cl.isIncomplete = true ∧
      cl.items =
        (c2wsrv.functions.filter (fun name => goHasPrefix (goToLower name) "ra")).map
            (functionItem ⟨⟨0, 0⟩, ⟨0, 2⟩⟩) ++
          (["railgun"].filter (fun name => goHasPrefix name "ra")).map
            (valueItem ⟨⟨0, 0⟩, ⟨0, 2⟩⟩) ∧
      (∀ item ∈ cl.items, ∃ name,
        (item = functionItem ⟨⟨0, 0⟩, ⟨0, 2⟩⟩ name ∧
          name ∈ c2wsrv.functions ∧ goHasPrefix (goToLower name) "ra" = true) ∨
        (item = valueItem ⟨⟨0, 0⟩, ⟨0, 2⟩⟩ name ∧
          name ∈ ["railgun"] ∧ goHasPrefix name "ra" = true)) ∧
      (∀ name ∈ c2wsrv.functions, goHasPrefix (goToLower name) "ra" = true →
        functionItem ⟨⟨0, 0⟩, ⟨0, 2⟩⟩ name ∈ cl.items) ∧
      (∀ name ∈ ["railgun"], goHasPrefix name "ra" = true →
        valueItem ⟨⟨0, 0⟩, ⟨0, 2⟩⟩ name ∈ cl.items) :=
  getCompletions_prefix_only_characterization c2wsrv c2doc c2wnode "ra"
    ["railgun"] { line := 0, character := 0 } { line := 0, character := 2 }
    rfl rfl rfl rfl

/-- C3, counterexample: with the query-execution endpoint unreachable (the
label-values lookup failing with "connection refused") and the cursor inside
a selector, `Completion` returns that error to the caller instead of an
empty completion list. -/
theorem completion_unreachable_endpoint_counterexample :
    Completion c3srv "1.promql" { line := 0, character := 2 } =
      .error "connection refused" := by
  decide

/-- C3, amended: when the label-values lookup fails, the failed first
attempt at `cursor - 1` only causes the retry at the cursor offset, and a
failure there is propagated to the caller as an error — the condition is not
absorbed into an empty completion list. -/
theorem completion_propagates_unreachable_endpoint
    (s : Server) (uri : String) (ppos : Position) (doc : Document) (pos : Int)
    (query : CompiledQuery) (n1 n2 : Node) (m1 m2 e : String)
    (hdoc : s.getDocument uri = .ok doc)
    (hpos : doc.protocolPositionToTokenPos ppos = .ok pos)
    (hquery : doc.getQuery (pos - 1) = .ok query)
    (hprom : s.prometheus = some (.error e))
    (h1 : getSmallestSurroundingNode query.ast (pos - 1) = some n1)
    (hm1 : n1.selectorName = some m1)
    (h2 : getSmallestSurroundingNode query.ast pos = some n2)
    (hm2 : n2.selectorName = some m2) :
    Completion s uri ppos = .error e := by
  have g1 : getCompletions s doc n1 = .error e := by
    simp only [getCompletions, hm1, hprom]
  have g2 : getCompletions s doc n2 = .error e := by
    simp only [getCompletions, hm2, hprom]
  simp only [Completion, hdoc, hpos, hquery, h1, g1, h2, g2]
/-- C3 witness: the fixture instantiates the propagation theorem. -/
theorem completion_propagates_unreachable_endpoint_witness :
    Completion c3srv "1.promql" { line := 0, character := 2 } =
      .error "connection refused" :=
  completion_propagates_unreachable_endpoint c3srv "1.promql"
    { line := 0, character := 2 } c3doc 2
    { startOffset := 0, endOffset := 4, ast := [Node.vectorSelector "a" 0 4] }
    (Node.vectorSelector "a" 0 4) (Node.vectorSelector "a" 0 4) "a" "a"
    "connection refused" rfl rfl rfl rfl rfl rfl rfl rfl

/-- C4, counterexample: a position-conversion failure (`OutOfRange`) is not
surfaced: `Completion` answers `(nil, nil)` — a nil result and no error. -/
theorem completion_out_of_range_counterexample :
    c4doc.protocolPositionToTokenPos { line := 0, character := 99 } =
        .error "OutOfRange" ∧
      Completion c4srv "1.promql" { line := 0, character := 99 } = .ok none :=
  ⟨rfl, rfl⟩

/-- C4, amended: a position-conversion failure in a completion request is
silently absorbed: `Completion` returns a nil result and no error to the
caller. -/
theorem completion_absorbs_position_conversion_failure
    (s : Server) (uri : String) (ppos : Position) (doc : Document) (e : String)
    (hdoc : s.getDocument uri = .ok doc)
    (hpos : doc.protocolPositionToTokenPos ppos = .error e) :
    Completion s uri ppos = .ok none := by
  simp only [Completion, hdoc, hpos]
/-- C4 witness: the fixture instantiates the absorption theorem. -/
theorem completion_absorbs_position_conversion_failure_witness :
    Completion c4srv "1.promql" { line := 0, character := 99 } = .ok none :=
  completion_absorbs_position_conversion_failure c4srv "1.promql"
    { line := 0, character := 99 } c4doc "OutOfRange" rfl rfl

/-- C5: a node that is neither a vector selector nor a matrix selector yields
a successful result carrying no candidates — the error component is nil and
the candidate list is empty. -/
theorem getCompletions_unrecognized_context_empty
    (s : Server) (doc : Document) (node : Node)
    (h : node.selectorName = none) :
    ∃ r, getCompletions s doc node = .ok r ∧ candidates r = [] :=
  ⟨none, by simp only [getCompletions, h], rfl⟩
/-- C5 witness: a number-literal-like node (neither selector kind) yields no
candidates and no error. -/
theorem getCompletions_unrecognized_context_empty_witness :
    ∃ r, getCompletions c5srv c5doc (Node.other 0 1) = .ok r ∧ candidates r = [] :=
  getCompletions_unrecognized_context_empty c5srv c5doc (Node.other 0 1) rfl

/-- C6: for the three adapter endpoints, a missing (or value-less) `expr`
parameter is answered 400; on the position-based endpoints a missing or
unparsable `line`/`char` is answered 400 (once the ephemeral document has
been opened, which the fresh request URI guarantees); and a failing core
operation — opening the document, diagnostics, hover, or completion — is
answered 500 with the wrapped error message as the body (the completion
handler reuses the "failed to get hover info" wrapping). -/
theorem serveHTTP_status_codes
    (h : HeadlessServer) (parseNum : String → Option Nat)
    (st : HandlerState) (req : Request) :
    ((req.path = "/diagnostics" ∨ req.path = "/hover" ∨ req.path = "/completion") →
      (queryGet req.query "expr" = none ∨ queryGet req.query "expr" = some []) →
      (serveHTTP h parseNum st req).1 =
        { status := 400, body := "Param expr is not specified" })
    ∧ (∀ expr rest e,
        (req.path = "/hover" ∨ req.path = "/completion") →
        queryGet req.query "expr" = some (expr :: rest) →
        cacheLookup st.cache (requestURI (st.requestCounter + 1)) = none →
        getPositionFromURL parseNum req.query = .error e →
        (serveHTTP h parseNum st req).1 = { status := 400, body := e })
    ∧ (∀ expr rest text,
        (req.path = "/diagnostics" ∨ req.path = "/hover" ∨ req.path = "/completion") →
        queryGet req.query "expr" = some (expr :: rest) →
        cacheLookup st.cache (requestURI (st.requestCounter + 1)) = some text →
        (serveHTTP h parseNum st req).1 =
          { status := 500, body := "failed to open document: " ++ "AlreadyOpen" })
    ∧ (∀ expr rest e,
        req.path = "/diagnostics" →
        queryGet req.query "expr" = some (expr :: rest) →
        cacheLookup st.cache (requestURI (st.requestCounter + 1)) = none →
        h.getDiagnostics ((requestURI (st.requestCounter + 1), expr) :: st.cache)
            (requestURI (st.requestCounter + 1)) = .error e →
        (serveHTTP h parseNum st req).1 =
          { status := 500, body := "failed to get diagnostics: " ++ e })
    ∧ (∀ expr rest pos e,
        req.path = "/hover" →
        queryGet req.query "expr" = some (expr :: rest) →
        cacheLookup st.cache (requestURI (st.requestCounter + 1)) = none →
        getPositionFromURL parseNum req.query = .ok pos →
        h.hover ((requestURI (st.requestCounter + 1), expr) :: st.cache)
            (requestURI (st.requestCounter + 1)) pos = .error e →
        (serveHTTP h parseNum st req).1 =
          { status := 500, body := "failed to get hover info: " ++ e })
    ∧ (∀ expr rest pos e,
        req.path = "/completion" →
        queryGet req.query "expr" = some (expr :: rest) →
        cacheLookup st.cache (requestURI (st.requestCounter + 1)) = none →
        getPositionFromURL parseNum req.query = .ok pos →
        h.completion ((requestURI (st.requestCounter + 1), expr) :: st.cache)
            (requestURI (st.requestCounter + 1)) pos = .error e →
        (serveHTTP h parseNum st req).1 =
          { status := 500, body := "failed to get hover info: " ++ e }) := by
  obtain ⟨path, query⟩ := req
  refine ⟨?_, ?_, ?_, ?_, ?_, ?_⟩
  · intro hpath hexpr
    rcases hpath with hp | hp | hp <;> subst hp <;>
      rcases hexpr with hq | hq <;> simp [serveHTTP, hq]
  · intro expr rest e hpath hq hfresh hpos
    rcases hpath with hp | hp <;> subst hp <;>
      simp [serveHTTP, hq, didOpen, hfresh, hoverResponse, completionResponse, hpos]
  · intro expr rest text hpath hq hopen
    rcases hpath with hp | hp | hp <;> subst hp <;>
      simp [serveHTTP, hq, didOpen, hopen]
  · intro expr rest e hp hq hfresh hdiag
    subst hp
    simp [serveHTTP, hq, didOpen, hfresh, diagnosticsResponse, hdiag]
  · intro expr rest pos e hp hq hfresh hpos hhover
    subst hp
    simp [serveHTTP, hq, didOpen, hfresh, hoverResponse, hpos, hhover]
  · intro expr rest pos e hp hq hfresh hpos hcompl
    subst hp
    simp [serveHTTP, hq, didOpen, hfresh, completionResponse, hpos, hcompl]
/-- C6 witness: a missing `expr` on `/diagnostics` is a 400; a missing
`line` on `/hover` is a 400; a failing diagnostics computation is a 500
carrying the wrapped message. -/
theorem serveHTTP_status_codes_witness :
    (serveHTTP c6hs c6pf c6st { path := "/diagnostics", query := [] }).1 =
        { status := 400, body := "Param expr is not specified" } ∧
    (serveHTTP c6hs c6pf c6st { path := "/hover", query := [("expr", ["up"])] }).1 =
        { status := 400, body := "Param line is not specified" } ∧
    (serveHTTP c6hs c6pf c6st { path := "/diagnostics", query := [("expr", ["up("])] }).1 =
        { status := 500, body := "failed to get diagnostics: " ++ "parse error" } :=
  ⟨(serveHTTP_status_codes c6hs c6pf c6st { path := "/diagnostics", query := [] }).1
      (Or.inl rfl) (Or.inl rfl),
   (serveHTTP_status_codes c6hs c6pf c6st
        { path := "/hover", query := [("expr", ["up"])] }).2.1
      "up" [] "Param line is not specified" (Or.inl rfl) rfl rfl rfl,
   (serveHTTP_status_codes c6hs c6pf c6st
        { path := "/diagnostics", query := [("expr", ["up("])] }).2.2.2.1
      "up(" [] "parse error" rfl rfl rfl rfl⟩

/-- C7: a request whose synthesized per-request URI is fresh leaves the
document cache exactly as it found it — the ephemeral document is closed on
every path, success and failure alike, so no request-scoped document
survives the request; the request counter advances by one (so the URI is
per-request); and on the successful hover path the core operation runs
against the cache holding the ephemeral document synthesized from `expr`. -/
theorem serveHTTP_ephemeral_document
    (h : HeadlessServer) (parseNum : String → Option Nat)
    (st : HandlerState) (req : Request)
    (hfresh : cacheLookup st.cache (requestURI (st.requestCounter + 1)) = none) :
    (serveHTTP h parseNum st req).2.cache = st.cache
    ∧ (serveHTTP h parseNum st req).2.requestCounter = st.requestCounter + 1
    ∧ cacheLookup (serveHTTP h parseNum st req).2.cache
        (requestURI (st.requestCounter + 1)) = none
    ∧ (∀ expr rest pos,
        req.path = "/hover" →
        queryGet req.query "expr" = some (expr :: rest) →
        getPositionFromURL parseNum req.query = .ok pos →
        (serveHTTP h parseNum st req).1 =
          (match h.hover ((requestURI (st.requestCounter + 1), expr) :: st.cache)
              (requestURI (st.requestCounter + 1)) pos with
            | .error e => { status := 500, body := "failed to get hover info: " ++ e }
            | .ok body => { status := 200, body := body })) := by
  obtain ⟨path, query⟩ := req
  have hcache : (serveHTTP h parseNum st ⟨path, query⟩).2.cache = st.cache := by
    simp only [serveHTTP]
    split
    · rfl
    · rcases hq : queryGet query "expr" with _ | l
      · simp only [hq]
      · rcases l with _ | ⟨expr, rest⟩
        · simp only [hq]
        · simp only [hq, didOpen, hfresh]
          exact didClose_didOpen st.cache _ expr hfresh
  refine ⟨hcache, ?_, ?_, ?_⟩
  · simp only [serveHTTP]
    split
    · rfl
    · rcases hq : queryGet query "expr" with _ | l
      · simp only [hq]
      · rcases l with _ | ⟨expr, rest⟩
        · simp only [hq]
        · simp only [hq, didOpen, hfresh]
  · rw [hcache]
    exact hfresh
  · intro expr rest pos hp hq hpos
    subst hp
    simp [serveHTTP, hq, didOpen, hfresh, hoverResponse, hpos]
/-- C7 witness: a successful hover request against an empty cache leaves the
cache empty, advances the counter to 1, and answers 200 with the hover
payload computed against the ephemeral document. -/
theorem serveHTTP_ephemeral_document_witness :
    (serveHTTP c7hs c6pf c6st
        { path := "/hover",
          query := [("expr", ["up"]), ("line", ["0"]), ("char", ["1"])] }).2.cache = [] ∧
    (serveHTTP c7hs c6pf c6st
        { path := "/hover",
          query := [("expr", ["up"]), ("line", ["0"]), ("char", ["1"])] }).2.requestCounter = 1 ∧
    (serveHTTP c7hs c6pf c6st
        { path := "/hover",
          query := [("expr", ["up"]), ("line", ["0"]), ("char", ["1"])] }).1 =
      { status := 200, body := "hoverinfo" } :=
  ⟨(serveHTTP_ephemeral_document c7hs c6pf c6st
      { path := "/hover", query := [("expr", ["up"]), ("line", ["0"]), ("char", ["1"])] }
      rfl).1,
   (serveHTTP_ephemeral_document c7hs c6pf c6st
      { path := "/hover", query := [("expr", ["up"]), ("line", ["0"]), ("char", ["1"])] }
      rfl).2.1,
   (serveHTTP_ephemeral_document c7hs c6pf c6st
      { path := "/hover", query := [("expr", ["up"]), ("line", ["0"]), ("char", ["1"])] }
      rfl).2.2.2 "up" [] { line := 0, character := 1 } rfl rfl rfl⟩

/-- C8: when a configuration change carries a `url` setting, the URL is
validated syntactically before anything is swapped — on a parse failure the
state is unchanged and the error returned; on a valid URL the endpoint is
installed and an immediate refresh runs, replacing the snapshot on success;
and when the new endpoint is unreachable the error is shown to the client
while the new URL stays installed (no revert) and the old snapshot is
retained. -/
theorem setURLFromChangeConfiguration_validates_then_swaps
    (urlParse : String → Except String Unit)
    (fetch : String → Except String (List String))
    (s : LangState) (settings : List (String × String)) (u : String)
    (hurl : (settings.find? (fun kv => kv.fst == "url")).map Prod.snd = some u) :
    (∀ e, urlParse u = .error e →
      setURLFromChangeConfiguration urlParse fetch s settings = (s, some e))
    ∧ (∀ names, urlParse u = .ok () → fetch u = .ok names →
        setURLFromChangeConfiguration urlParse fetch s settings =
          ({ s with metadataService := { dataSourceURL := u, snapshotNames := names } },
            none))
    ∧ (∀ e, urlParse u = .ok () → fetch u = .error e →
        setURLFromChangeConfiguration urlParse fetch s settings =
          ({ s with
              metadataService :=
                { dataSourceURL := u, snapshotNames := s.metadataService.snapshotNames }
              showMessages := s.showMessages ++
                ["Failed to connect to Prometheus at " ++ u ++ ":\n\n" ++ e ++ " "] },
            some e)) := by
  refine ⟨?_, ?_, ?_⟩
  · intro e he
    simp [setURLFromChangeConfiguration, hurl, he]
  · intro names hok hf
    simp [setURLFromChangeConfiguration, hurl, hok, connectPrometheus,
      changeDataSource, hf]
  · intro e hok hf
    simp [setURLFromChangeConfiguration, hurl, hok, connectPrometheus,
      changeDataSource, hf]
/-- C8 witness: an unreachable new endpoint is reported through a client
message, while the new URL replaces the old one and the snapshot is kept. -/
theorem setURLFromChangeConfiguration_validates_then_swaps_witness :
    setURLFromChangeConfiguration (fun _ => .ok ())
        (fun _ => .error "connection refused") c8state
        [("url", "http://new:9090")] =
      ({ metadataService := ⟨"http://new:9090", ["up"]⟩,
         metadataLookbackInterval := 0,
         logMessages := [],
         showMessages :=
           ["Failed to connect to Prometheus at http://new:9090:\n\nconnection refused "] },
        some "connection refused") :=
  (setURLFromChangeConfiguration_validates_then_swaps (fun _ => .ok ())
      (fun _ => .error "connection refused") c8state
      [("url", "http://new:9090")] "http://new:9090" rfl).2.2
    "connection refused" rfl rfl

/-- C9: configuration validation fails when a non-empty `PrometheusURL` does
not parse, and a successful validation replaces a non-positive
`MetadataLookbackInterval` by the 12-hour default while keeping a positive
one. -/
theorem validate_url_and_interval
    (urlParse : String → Except String Unit) (c : Config) :
    (∀ e, c.prometheusURL.length > 0 → urlParse c.prometheusURL = .error e →
      validate urlParse c = .error e)
    ∧ (∀ c2, validate urlParse c = .ok c2 →
        c2.metadataLookbackInterval =
          (if c.metadataLookbackInterval ≤ 0 then defaultInterval
           else c.metadataLookbackInterval)) := by
  constructor
  · intro e hlen herr
    simp [validate, if_pos hlen, herr]
  · intro c2 hok
    unfold validate at hok
    rcases hu : (if c.prometheusURL.length > 0 then urlParse c.prometheusURL
        else Except.ok ()) with e | u
    · rw [hu] at hok
      exact Except.noConfusion hok
    · rw [hu] at hok
      rcases hlf : validateLogFormat c with e | c1
      · rw [hlf] at hok
        exact Except.noConfusion hok
      · rw [hlf] at hok
        injection hok with hbody
        have hmli : c1.metadataLookbackInterval = c.metadataLookbackInterval := by
          unfold validateLogFormat at hlf
          split at hlf
          · split at hlf
            · injection hlf with h2
              rw [← h2]
            · exact Except.noConfusion hlf
          · injection hlf with h2
            rw [← h2]
        subst hbody
        by_cases hc : c.metadataLookbackInterval ≤ 0 <;> simp [hmli, hc]
/-- C9 witness: a bad URL fails validation with the parse error; a good URL
with interval `-5` validates to the 12-hour default interval. -/
theorem validate_url_and_interval_witness :
    validate c9badParse c9cfg = .error "missing protocol scheme" ∧
    ({ rpcTrace := "", logFormat := "text", prometheusURL := "http://localhost:9090",
        restAPIPort := 0, metadataLookbackInterval := defaultInterval } : Config).metadataLookbackInterval =
      (if c9cfg.metadataLookbackInterval ≤ 0 then defaultInterval
       else c9cfg.metadataLookbackInterval) :=
  ⟨(validate_url_and_interval c9badParse c9cfg).1 "missing protocol scheme"
      (by decide) rfl,
   (validate_url_and_interval c9okParse c9cfg).2 _ (by decide)⟩

/-- C10: `DidChangeConfiguration` returns nil to its caller on every input —
nil params, malformed settings, a missing `promql` key, and any outcome of
the URL and interval setters — absorbing every failure into client log
messages. -/
theorem didChangeConfiguration_never_errors
    (urlParse : String → Except String Unit)
    (fetch : String → Except String (List String))
    (parseDuration : String → Except String Int)
    (s : LangState) (params : Option Settings) :
    (didChangeConfiguration urlParse fetch parseDuration s params).2 = none := by
  rcases params with _ | settings
  · rfl
  · rcases settings with m | _
    · rcases hpq : (m.find? (fun kv => kv.fst == "promql")).map Prod.snd with _ | config
      · simp [didChangeConfiguration, hpq]
      · simp [didChangeConfiguration, hpq]
    · rfl

end PromQLLS
